import Mathlib

/-!
Verification of the package-docs MCP server (`src/index.ts`).

The file shallowly embeds the single source file of the repository: the
capability list returned by the `ListToolsRequestSchema` handler, the two tool
handlers of the `CallToolRequestSchema` handler (`get_npm_docs`,
`get_pypi_docs`) with their fetch, render and error paths, and the default
branch for unknown tool names.

Modelling conventions, all reflecting JavaScript semantics of the source:
- a possibly absent JSON field is an `Option`; template interpolation of an
  absent field prints the text `undefined` (`jsStr`);
- JavaScript truthiness of a string field (`if (x)`) is false exactly for an
  absent field and for the empty string (`jsTruthy`); an object field such as
  `project_urls` is truthy whenever present, even when the mapping is empty;
- indexing an object with an `undefined` key looks up the literal key
  `"undefined"` (`jsKey`), per ECMAScript ToPropertyKey;
- `String.prototype.replace` with a plain-string pattern and empty replacement
  removes the first occurrence of the pattern anywhere in the string
  (`replaceFirst`);
- the axios clients reject with an axios error both on network failure and on a
  non-2xx HTTP status (`FetchResult.networkError`, `FetchResult.httpError`);
  those are the errors the catch blocks convert to MCP errors. A `TypeError`
  raised while reading fields of an `undefined` value inside the `try` block is
  not an axios error, so the catch block rethrows it: this is
  `DispatchOutcome.uncaughtFault`, an exception escaping the handler;
- the objects of a JSON mapping are modelled as association lists, keys in
  insertion order.
-/

/-- JavaScript template interpolation of a possibly absent string field: an
absent field prints as the text `undefined`. -/
def jsStr (o : Option String) : String := o.getD "undefined"

/-- JavaScript truthiness of a possibly absent string field: `null`,
`undefined` and the empty string are falsy, every other string is truthy. -/
def jsTruthy (o : Option String) : Bool := !(o.getD "" == "")

/-- JavaScript property-key conversion: indexing an object with `undefined`
looks up the literal key `"undefined"`. -/
def jsKey (o : Option String) : String := o.getD "undefined"

/-- Characterwise model of `String.prototype.replace` with a plain-string
pattern and empty replacement: the first occurrence of `pat` anywhere in the
character list is removed; everything else is unchanged. -/
def removeFirst (pat : List Char) : List Char → List Char
  | [] => []
  | c :: cs =>
      if List.IsPrefix pat (c :: cs) then (c :: cs).drop pat.length
      else c :: removeFirst pat cs

/-- String form of `removeFirst`: models `s.replace(pat, '')` of the source. -/
def replaceFirst (s pat : String) : String := String.mk (removeFirst pat.data s.data)

/-- The string `sub` occurs contiguously somewhere inside `s`. -/
def containsStr (s sub : String) : Prop := List.IsInfix sub.data s.data

instance (s sub : String) : Decidable (containsStr s sub) :=
  inferInstanceAs (Decidable (List.IsInfix sub.data s.data))

/-- Repository object of an npm version entry; the `url` field may be absent. -/
structure NpmRepository where
  url : Option String
deriving DecidableEq

/-- One entry of the npm `versions` mapping, restricted to the fields the
handler reads. -/
structure NpmVersionData where
  homepage : Option String
  repository : Option NpmRepository
  keywords : Option (List String)
deriving DecidableEq

/-- The npm `dist-tags` object; the `latest` tag may be absent. -/
structure NpmDistTags where
  latest : Option String
deriving DecidableEq

/-- Parsed body of a 2xx npm registry response, restricted to the fields the
handler reads; any of them may be absent. -/
structure NpmData where
  name : Option String
  description : Option String
  distTags : Option NpmDistTags
  versions : Option (List (String × NpmVersionData))
  readme : Option String
deriving DecidableEq

/-- The `info` object of a PyPI JSON response, restricted to the fields the
handler reads. -/
structure PypiInfo where
  name : Option String
  version : Option String
  summary : Option String
  home_page : Option String
  project_urls : Option (List (String × String))
  keywords : Option String
  description : Option String
deriving DecidableEq

/-- Parsed body of a 2xx PyPI response; the top-level `info` object may be
absent. -/
structure PypiData where
  info : Option PypiInfo
deriving DecidableEq

/-- Outcome of one axios GET: a parsed body on 2xx, or an axios error for a
network/transport failure or for a non-2xx HTTP status (axios rejects on
non-2xx by default, and `axios.isAxiosError` is true for both). -/
inductive FetchResult (α : Type) where
  | ok (data : α)
  | networkError (message : String)
  | httpError (status : Nat) (message : String)
deriving DecidableEq

/-- The MCP error codes the source uses. -/
inductive ErrorCode where
  | methodNotFound
  | internalError
deriving DecidableEq

/-- Result of one `CallToolRequestSchema` invocation: a successful text
payload, a typed `McpError` thrown by the handler, or a non-MCP runtime fault
rethrown past the handler. -/
inductive DispatchOutcome where
  | success (text : String)
  | mcpError (code : ErrorCode) (message : String)
  | uncaughtFault (message : String)
deriving DecidableEq

/-- Which upstream registry a fetch call went to. -/
inductive Registry where
  | npm
  | pypi
deriving DecidableEq

/-- One outbound fetch performed during an invocation. -/
structure FetchCall where
  registry : Registry
  packageName : String
deriving DecidableEq

/-- The upstream world: what each registry answers for each package name. -/
structure UpstreamEnv where
  npm : String → FetchResult NpmData
  pypi : String → FetchResult PypiData

/-- The Installation section of the npm document, embedding the caller-supplied
package name verbatim. -/
def npmInstallSection (package_name : String) : String :=
  "## Installation\n\n```bash\nnpm install " ++ package_name ++ "\n```\n\n"

/-- The Installation section of the PyPI document, embedding the
caller-supplied package name verbatim. -/
def pypiInstallSection (package_name : String) : String :=
  "## Installation\n\n```bash\npip install " ++ package_name ++ "\n```\n\n"

/-- Document built by the `get_npm_docs` handler once `latestData` has been
resolved, transcribed append by append from the source: each
`if (x) docs += y` of the source is one conditional summand. -/
def renderNpm (package_name : String) (data : NpmData) (latestVersion : Option String)
    (latestData : NpmVersionData) : String :=
  "# " ++ jsStr data.name ++ " v" ++ jsStr latestVersion ++ "\n\n"
  ++ (if jsTruthy data.description then data.description.getD "" ++ "\n\n" else "")
  ++ npmInstallSection package_name
  ++ (if jsTruthy latestData.homepage then
        "## Homepage\n" ++ latestData.homepage.getD "" ++ "\n\n"
      else "")
  ++ (if jsTruthy (latestData.repository.bind NpmRepository.url) then
        "## Repository\n"
          ++ replaceFirst ((latestData.repository.bind NpmRepository.url).getD "") "git+"
          ++ "\n\n"
      else "")
  ++ (if 0 < (latestData.keywords.getD []).length then
        "## Keywords\n" ++ String.intercalate ", " (latestData.keywords.getD []) ++ "\n\n"
      else "")
  ++ (if jsTruthy data.readme then "## Documentation\n\n" ++ data.readme.getD "" ++ "\n" else "")

/-- Body of the Project Links section: one line per entry of `project_urls`,
in insertion order, transcribing the `for...of Object.entries` loop. -/
def projectLinksItems : List (String × String) → String
  | [] => ""
  | entry :: rest => "- " ++ entry.1 ++ ": " ++ entry.2 ++ "\n" ++ projectLinksItems rest

/-- Document built by the `get_pypi_docs` handler from the `info` object,
transcribed append by append from the source. -/
def renderPypi (package_name : String) (info : PypiInfo) : String :=
  "# " ++ jsStr info.name ++ " v" ++ jsStr info.version ++ "\n\n"
  ++ (if jsTruthy info.summary then info.summary.getD "" ++ "\n\n" else "")
  ++ pypiInstallSection package_name
  ++ (if jsTruthy info.home_page then "## Homepage\n" ++ info.home_page.getD "" ++ "\n\n" else "")
  ++ (match info.project_urls with
      | some urls => "## Project Links\n" ++ projectLinksItems urls ++ "\n"
      | none => "")
  ++ (if jsTruthy info.keywords then "## Keywords\n" ++ info.keywords.getD "" ++ "\n\n" else "")
  ++ (if jsTruthy info.description then
        "## Documentation\n\n" ++ info.description.getD "" ++ "\n"
      else "")

/-- The `get_npm_docs` case of the call handler: fetch result to outcome.
Field reads on `undefined` (`dist-tags` absent, `versions` absent, or no
`versions` entry under the looked-up key) raise a `TypeError`, which the catch
block rethrows since it is not an axios error. -/
def getNpmDocs (package_name : String) (res : FetchResult NpmData) : DispatchOutcome :=
  match res with
  | .networkError m => .mcpError .internalError ("Failed to fetch npm package info: " ++ m)
  | .httpError _ m => .mcpError .internalError ("Failed to fetch npm package info: " ++ m)
  | .ok data =>
    match data.distTags with
    | none => .uncaughtFault "TypeError: cannot read latest of undefined"
    | some dt =>
      match data.versions with
      | none => .uncaughtFault "TypeError: cannot index into undefined versions"
      | some vs =>
        match vs.lookup (jsKey dt.latest) with
        | none => .uncaughtFault "TypeError: cannot read homepage of undefined"
        | some latestData => .success (renderNpm package_name data dt.latest latestData)

/-- The `get_pypi_docs` case of the call handler: fetch result to outcome.
A missing top-level `info` object raises a `TypeError` at `info.name`, which
the catch block rethrows since it is not an axios error. -/
def getPypiDocs (package_name : String) (res : FetchResult PypiData) : DispatchOutcome :=
  match res with
  | .networkError m => .mcpError .internalError ("Failed to fetch PyPI package info: " ++ m)
  | .httpError _ m => .mcpError .internalError ("Failed to fetch PyPI package info: " ++ m)
  | .ok data =>
    match data.info with
    | none => .uncaughtFault "TypeError: cannot read name of undefined"
    | some info => .success (renderPypi package_name info)

/-- The `CallToolRequestSchema` handler: dispatch on the tool name, perform at
most one upstream fetch, and produce the outcome together with the list of
fetch calls actually issued. -/
def handleCallTool (env : UpstreamEnv) (toolName : String) (package_name : String) :
    DispatchOutcome × List FetchCall :=
  if toolName = "get_npm_docs" then
    (getNpmDocs package_name (env.npm package_name), [{ registry := .npm, packageName := package_name }])
  else if toolName = "get_pypi_docs" then
    (getPypiDocs package_name (env.pypi package_name), [{ registry := .pypi, packageName := package_name }])
  else
    (.mcpError .methodNotFound ("Unknown tool: " ++ toolName), [])

/-- A batch of independent invocations against a fixed upstream world: the
server holds no state between invocations, so a batch is a map. -/
def processRequests (env : UpstreamEnv) (reqs : List (String × String)) :
    List (DispatchOutcome × List FetchCall) :=
  reqs.map fun r => handleCallTool env r.1 r.2

/-- One property of a tool input schema. -/
structure SchemaProperty where
  name : String
  type : String
  description : String
deriving DecidableEq

/-- Input schema of a tool entry. -/
structure ToolInputSchema where
  type : String
  properties : List SchemaProperty
  required : List String
deriving DecidableEq

/-- One entry of the capability list. -/
structure Tool where
  name : String
  description : String
  inputSchema : ToolInputSchema
deriving DecidableEq

/-- The fixed list returned by the `ListToolsRequestSchema` handler. -/
def listTools : List Tool :=
  [ { name := "get_npm_docs",
      description := "Get documentation and information for an npm package",
      inputSchema :=
        { type := "object",
          properties :=
            [ { name := "package_name", type := "string",
                description := "Name of the npm package" } ],
          required := ["package_name"] } },
    { name := "get_pypi_docs",
      description := "Get documentation and information for a Python package from PyPI",
      inputSchema :=
        { type := "object",
          properties :=
            [ { name := "package_name", type := "string",
                description := "Name of the Python package" } ],
          required := ["package_name"] } } ]

/-- Concatenation of the texts of a list of named sections. -/
def sectionsBody : List (String × String) → String
  | [] => ""
  | s :: rest => s.2 ++ sectionsBody rest

/-- The npm document as a list of named sections, in the emission order of the
source; a section is present exactly when the source appends it. -/
def npmSections (package_name : String) (data : NpmData) (latestVersion : Option String)
    (latestData : NpmVersionData) : List (String × String) :=
  [("title", "# " ++ jsStr data.name ++ " v" ++ jsStr latestVersion ++ "\n\n")]
  ++ (if jsTruthy data.description then [("description", data.description.getD "" ++ "\n\n")] else [])
  ++ [("installation", npmInstallSection package_name)]
  ++ (if jsTruthy latestData.homepage then
        [("homepage", "## Homepage\n" ++ latestData.homepage.getD "" ++ "\n\n")]
      else [])
  ++ (if jsTruthy (latestData.repository.bind NpmRepository.url) then
        [("repository",
          "## Repository\n"
            ++ replaceFirst ((latestData.repository.bind NpmRepository.url).getD "") "git+"
            ++ "\n\n")]
      else [])
  ++ (if 0 < (latestData.keywords.getD []).length then
        [("keywords", "## Keywords\n" ++ String.intercalate ", " (latestData.keywords.getD []) ++ "\n\n")]
      else [])
  ++ (if jsTruthy data.readme then
        [("documentation", "## Documentation\n\n" ++ data.readme.getD "" ++ "\n")]
      else [])

/-- The PyPI document as a list of named sections, in the emission order of the
source; a section is present exactly when the source appends it. -/
def pypiSections (package_name : String) (info : PypiInfo) : List (String × String) :=
  [("title", "# " ++ jsStr info.name ++ " v" ++ jsStr info.version ++ "\n\n")]
  ++ (if jsTruthy info.summary then [("summary", info.summary.getD "" ++ "\n\n")] else [])
  ++ [("installation", pypiInstallSection package_name)]
  ++ (if jsTruthy info.home_page then
        [("homepage", "## Homepage\n" ++ info.home_page.getD "" ++ "\n\n")]
      else [])
  ++ (match info.project_urls with
      | some urls => [("project_links", "## Project Links\n" ++ projectLinksItems urls ++ "\n")]
      | none => [])
  ++ (if jsTruthy info.keywords then
        [("keywords", "## Keywords\n" ++ info.keywords.getD "" ++ "\n\n")]
      else [])
  ++ (if jsTruthy info.description then
        [("documentation", "## Documentation\n\n" ++ info.description.getD "" ++ "\n")]
      else [])

/-- The fixed npm section order. -/
def npmSectionOrder : List String :=
  ["title", "description", "installation", "homepage", "repository", "keywords", "documentation"]

/-- The fixed PyPI section order. -/
def pypiSectionOrder : List String :=
  ["title", "summary", "installation", "homepage", "project_links", "keywords", "documentation"]

/-- The npm upstream-schema condition under which the handler actually raises
a TypeError: the `dist-tags` object is absent, the `versions` mapping is
absent, or the `versions` lookup under the JS-converted latest key (the
literal key `"undefined"` when `latest` is absent) finds no entry. -/
def npmSchemaBad (d : NpmData) : Prop :=
  d.distTags = none ∨ d.versions = none ∨
    ∃ dt vs, d.distTags = some dt ∧ d.versions = some vs
      ∧ vs.lookup (jsKey dt.latest) = none

/-- An upstream world whose registries are unreachable; used to exercise the
dispatcher without a successful fetch. -/
def probeEnv : UpstreamEnv :=
  { npm := fun _ => .networkError "connect ECONNREFUSED",
    pypi := fun _ => .networkError "connect ECONNREFUSED" }

/-- An upstream world answering 404 to every lookup. -/
def envDown : UpstreamEnv :=
  { npm := fun _ => .httpError 404 "Request failed with status code 404",
    pypi := fun _ => .httpError 404 "Request failed with status code 404" }

/-- The latest-version entry of the sample npm record. -/
def npmSampleVersion : NpmVersionData :=
  { homepage := some "https://x",
    repository := some { url := some "git+https://github.com/a/b.git" },
    keywords := some ["a", "b"] }

/-- A sample npm record whose resolved name differs from the queried package
identifier. -/
def npmSample : NpmData :=
  { name := some "sample-upstream-name",
    description := some "A sample package",
    distTags := some { latest := some "1.2.3" },
    versions := some [("1.2.3", npmSampleVersion)],
    readme := some "Read me" }

/-- A sample PyPI info object with two project links. -/
def pypiSampleInfo : PypiInfo :=
  { name := some "sample", version := some "2.0",
    summary := some "A sample",
    home_page := some "https://h",
    project_urls := some [("Docs", "https://d"), ("Source", "https://s")],
    keywords := some "k1, k2",
    description := some "Long text" }

/-- An upstream world answering the two sample records to every lookup. -/
def envOk : UpstreamEnv :=
  { npm := fun _ => .ok npmSample,
    pypi := fun _ => .ok { info := some pypiSampleInfo } }

/-- An upstream world answering 2xx with bodies that lack the expected fields:
the npm body has neither `dist-tags` nor `versions`, the PyPI body has no
`info` object. -/
def envSchemaBad : UpstreamEnv :=
  { npm := fun _ => .ok { name := none, description := none, distTags := none,
                          versions := none, readme := none },
    pypi := fun _ => .ok { info := none } }

/-- A version entry whose repository URL contains `git+` in the middle, not as
a leading marker. -/
def npmOddUrlVersion : NpmVersionData :=
  { homepage := none,
    repository := some { url := some "https://example.com/git+x" },
    keywords := none }

/-- An npm record carrying `npmOddUrlVersion` as its latest version. -/
def npmOddUrlData : NpmData :=
  { name := some "odd", description := none,
    distTags := some { latest := some "1.0.0" },
    versions := some [("1.0.0", npmOddUrlVersion)],
    readme := none }

/-- A version entry whose repository URL contains no `git+` at all. -/
def npmPlainUrlVersion : NpmVersionData :=
  { homepage := none,
    repository := some { url := some "https://gitlab.example/a/b" },
    keywords := none }

/-- A PyPI info object whose `project_urls` is present but an empty mapping. -/
def pypiEmptyLinksInfo : PypiInfo :=
  { name := some "empty-links", version := some "1.0",
    summary := none, home_page := none,
    project_urls := some [],
    keywords := none, description := none }

/-- An npm record whose `dist-tags` carries no `latest` tag while its
`versions` mapping carries an entry under the literal key `"undefined"`. -/
def npmUndefinedKeyData : NpmData :=
  { name := some "weird", description := none,
    distTags := some { latest := none },
    versions := some [("undefined",
      { homepage := none, repository := none, keywords := none })],
    readme := none }

theorem str_append_empty (s : String) : s ++ "" = s := by
  show String.mk (s.data ++ []) = s
  rw [List.append_nil]

theorem str_empty_append (s : String) : "" ++ s = s := rfl

theorem str_append_assoc (a b c : String) : a ++ b ++ c = a ++ (b ++ c) := by
  show String.mk _ = String.mk _
  rw [List.append_assoc]

theorem renderNpm_eq_sections (p : String) (d : NpmData) (lv : Option String)
    (ld : NpmVersionData) :
    renderNpm p d lv ld = sectionsBody (npmSections p d lv ld) := by
  simp only [renderNpm, npmSections]
  split_ifs <;>
    simp [sectionsBody, str_append_assoc, str_append_empty, str_empty_append]

theorem renderPypi_eq_sections (p : String) (info : PypiInfo) :
    renderPypi p info = sectionsBody (pypiSections p info) := by
  cases hu : info.project_urls <;>
    · simp only [renderPypi, pypiSections, hu]
      split_ifs <;>
        simp [sectionsBody, str_append_assoc, str_append_empty, str_empty_append]

theorem containsStr_of_eq_append (s pre mid post : String) (h : s = pre ++ mid ++ post) :
    containsStr s mid := by
  subst h
  exact ⟨pre.data, post.data, rfl⟩

theorem sectionsBody_contains (l : List (String × String)) (n t : String)
    (h : (n, t) ∈ l) : containsStr (sectionsBody l) t := by
  induction l with
  | nil => cases h
  | cons s rest ih =>
    rcases List.mem_cons.mp h with h1 | h2
    · refine ⟨[], (sectionsBody rest).data, ?_⟩
      show ([] ++ t.data) ++ (sectionsBody rest).data = s.2.data ++ (sectionsBody rest).data
      rw [← h1]
      simp
    · obtain ⟨pre2, post2, hpq⟩ := ih h2
      refine ⟨s.2.data ++ pre2, post2, ?_⟩
      show (s.2.data ++ pre2) ++ t.data ++ post2 = s.2.data ++ (sectionsBody rest).data
      rw [← hpq]
      simp [List.append_assoc]

theorem str_data_append (a b : String) : (a ++ b).data = a.data ++ b.data := rfl

theorem containsStr_append_right (p m : String) : containsStr (p ++ m) m :=
  ⟨p.data, [], by simp [str_data_append]⟩

theorem removeFirst_no_occurrence (pat s : List Char) (h : ¬ List.IsInfix pat s) :
    removeFirst pat s = s := by
  induction s with
  | nil => rfl
  | cons c cs ih =>
    have hp : ¬ List.IsPrefix pat (c :: cs) := by
      intro hpre
      obtain ⟨t, ht⟩ := hpre
      exact h ⟨[], t, by simp [ht]⟩
    have hc : ¬ List.IsInfix pat cs := by
      intro hinf
      obtain ⟨u, v, huv⟩ := hinf
      exact h ⟨c :: u, v, by simp [← huv]⟩
    simp only [removeFirst]
    rw [if_neg hp, ih hc]

theorem replaceFirst_no_occurrence (s pat : String) (h : ¬ containsStr s pat) :
    replaceFirst s pat = s := by
  show String.mk (removeFirst pat.data s.data) = s
  rw [removeFirst_no_occurrence pat.data s.data h]

theorem removeFirst_at_first (pat a b : List Char) (hpat : pat ≠ [])
    (h : ∀ i, i < a.length → ¬ List.IsPrefix pat ((a ++ pat ++ b).drop i)) :
    removeFirst pat (a ++ pat ++ b) = a ++ b := by
  induction a with
  | nil =>
    cases pat with
    | nil => exact absurd rfl hpat
    | cons p ps =>
      have hpre : List.IsPrefix (p :: ps) (p :: (ps ++ b)) := ⟨b, by simp⟩
      show removeFirst (p :: ps) (p :: (ps ++ b)) = b
      simp only [removeFirst]
      rw [if_pos hpre]
      show ((p :: ps) ++ b).drop (p :: ps).length = b
      exact List.drop_left _ _
  | cons c a2 ih =>
    have h0 : ¬ List.IsPrefix pat (c :: (a2 ++ pat ++ b)) := by
      have := h 0 (by simp)
      simpa using this
    show removeFirst pat (c :: (a2 ++ pat ++ b)) = c :: (a2 ++ b)
    simp only [removeFirst]
    rw [if_neg h0]
    refine congrArg (c :: ·) (ih ?_)
    intro i hi
    exact h (i + 1) (by simpa using Nat.succ_lt_succ hi)

theorem getNpmDocs_success (package_name txt : String) (res : FetchResult NpmData)
    (h : getNpmDocs package_name res = .success txt) :
    ∃ d dt vs ld, res = .ok d ∧ d.distTags = some dt ∧ d.versions = some vs
      ∧ vs.lookup (jsKey dt.latest) = some ld
      ∧ txt = renderNpm package_name d dt.latest ld := by
  rcases res with d | m | ⟨st, m⟩
  · rcases hdt : d.distTags with _ | dt
    · simp [getNpmDocs, hdt] at h
    · rcases hvs : d.versions with _ | vs
      · simp [getNpmDocs, hdt, hvs] at h
      · rcases hld : vs.lookup (jsKey dt.latest) with _ | ld
        · simp [getNpmDocs, hdt, hvs, hld] at h
        · refine ⟨d, dt, vs, ld, rfl, hdt, hvs, hld, ?_⟩
          simp [getNpmDocs, hdt, hvs, hld] at h
          exact h.symm
  · simp [getNpmDocs] at h
  · simp [getNpmDocs] at h

theorem getPypiDocs_success (package_name txt : String) (res : FetchResult PypiData)
    (h : getPypiDocs package_name res = .success txt) :
    ∃ d info, res = .ok d ∧ d.info = some info ∧ txt = renderPypi package_name info := by
  rcases res with d | m | ⟨st, m⟩
  · rcases hinfo : d.info with _ | info
    · simp [getPypiDocs, hinfo] at h
    · refine ⟨d, info, rfl, hinfo, ?_⟩
      simp [getPypiDocs, hinfo] at h
      exact h.symm
  · simp [getPypiDocs] at h
  · simp [getPypiDocs] at h

/-- Claim C3: for every invocation whose operation name is neither
`get_npm_docs` nor `get_pypi_docs`, the dispatcher yields a method-not-found
error carrying the unknown name and performs zero upstream fetch calls. -/
theorem c3_unknown_tool (env : UpstreamEnv) (toolName package_name : String)
    (h1 : toolName ≠ "get_npm_docs") (h2 : toolName ≠ "get_pypi_docs") :
    handleCallTool env toolName package_name
      = (.mcpError .methodNotFound ("Unknown tool: " ++ toolName), []) := by
  simp [handleCallTool, h1, h2]

/-- Witness for C3 at the concrete unknown name `foo_tool`. -/
theorem c3_witness :
    handleCallTool probeEnv "foo_tool" "left-pad"
      = (.mcpError .methodNotFound ("Unknown tool: " ++ "foo_tool"), []) :=
  c3_unknown_tool probeEnv "foo_tool" "left-pad" (by decide) (by decide)

/-- Claim C4: for both operations, an upstream transport failure (network
error or non-2xx HTTP status, 404 included) becomes a typed internal error
whose message contains the upstream error message; exactly one fetch was
issued (no retry) and no successful document is produced. -/
theorem c4_fetch_failure (env : UpstreamEnv) (package_name m : String) (status : Nat) :
    ((env.npm package_name = .networkError m ∨ env.npm package_name = .httpError status m) →
        handleCallTool env "get_npm_docs" package_name
          = (.mcpError .internalError ("Failed to fetch npm package info: " ++ m),
             [{ registry := .npm, packageName := package_name }])
        ∧ containsStr ("Failed to fetch npm package info: " ++ m) m)
    ∧ ((env.pypi package_name = .networkError m ∨ env.pypi package_name = .httpError status m) →
        handleCallTool env "get_pypi_docs" package_name
          = (.mcpError .internalError ("Failed to fetch PyPI package info: " ++ m),
             [{ registry := .pypi, packageName := package_name }])
        ∧ containsStr ("Failed to fetch PyPI package info: " ++ m) m) := by
  constructor
  · intro h
    refine ⟨?_, containsStr_append_right _ _⟩
    rcases h with h | h <;> simp [handleCallTool, getNpmDocs, h]
  · intro h
    refine ⟨?_, containsStr_append_right _ _⟩
    rcases h with h | h <;> simp [handleCallTool, getPypiDocs, h]

/-- Witness for C4 at a concrete 404 from both registries. -/
theorem c4_witness :
    (handleCallTool envDown "get_npm_docs" "no-such-pkg"
        = (.mcpError .internalError
             ("Failed to fetch npm package info: " ++ "Request failed with status code 404"),
           [{ registry := .npm, packageName := "no-such-pkg" }])
      ∧ containsStr ("Failed to fetch npm package info: " ++ "Request failed with status code 404")
          "Request failed with status code 404")
    ∧ (handleCallTool envDown "get_pypi_docs" "no-such-pkg"
        = (.mcpError .internalError
             ("Failed to fetch PyPI package info: " ++ "Request failed with status code 404"),
           [{ registry := .pypi, packageName := "no-such-pkg" }])
      ∧ containsStr ("Failed to fetch PyPI package info: " ++ "Request failed with status code 404")
          "Request failed with status code 404") :=
  ⟨(c4_fetch_failure envDown "no-such-pkg" "Request failed with status code 404" 404).1 (Or.inr rfl),
   (c4_fetch_failure envDown "no-such-pkg" "Request failed with status code 404" 404).2 (Or.inr rfl)⟩

/-- Claim C8: dispatch and rendering are pure: the outcome of an invocation in
a batch depends only on that invocation and the upstream world, not on its
position or on the other invocations, and a batch splits as a map. -/
theorem c8_purity (env : UpstreamEnv) (pre post : List (String × String))
    (toolName package_name : String) :
    (processRequests env (pre ++ (toolName, package_name) :: post))[pre.length]?
        = some (handleCallTool env toolName package_name)
    ∧ processRequests env (pre ++ post)
        = processRequests env pre ++ processRequests env post := by
  constructor
  · simp only [processRequests, List.map_append]
    rw [List.getElem?_append_right (by simp)]
    simp
  · simp only [processRequests, List.map_append]

/-- Claim C9: the capability list has exactly one entry named `get_npm_docs`
and exactly one named `get_pypi_docs`, and every entry declares a single
string property `package_name`, marked required. -/
theorem c9_capabilities :
    listTools.countP (fun t => t.name == "get_npm_docs") = 1
    ∧ listTools.countP (fun t => t.name == "get_pypi_docs") = 1
    ∧ listTools.all (fun t =>
        (t.inputSchema.properties.map (fun pr => (pr.name, pr.type))
            == [("package_name", "string")])
        && (t.inputSchema.required == ["package_name"])) = true := by
  decide

/-- Claim C6: every successful invocation of either operation renders an
Installation section embedding the caller-supplied package name verbatim in
the install command, whatever record the registry returned (in particular
whatever resolved name it carries and whichever optional fields are present). -/
theorem c6_installation (env : UpstreamEnv) (package_name txt : String) :
    ((handleCallTool env "get_npm_docs" package_name).1 = .success txt →
        containsStr txt (npmInstallSection package_name))
    ∧ ((handleCallTool env "get_pypi_docs" package_name).1 = .success txt →
        containsStr txt (pypiInstallSection package_name)) := by
  constructor
  · intro h
    have h2 : getNpmDocs package_name (env.npm package_name) = .success txt := by
      simpa [handleCallTool] using h
    obtain ⟨d, dt, vs, ld, _, _, _, _, htxt⟩ := getNpmDocs_success _ _ _ h2
    subst htxt
    rw [renderNpm_eq_sections]
    exact sectionsBody_contains _ "installation" _ (by simp [npmSections])
  · intro h
    have h2 : getPypiDocs package_name (env.pypi package_name) = .success txt := by
      simpa [handleCallTool] using h
    obtain ⟨d, info, _, _, htxt⟩ := getPypiDocs_success _ _ _ h2
    subst htxt
    rw [renderPypi_eq_sections]
    exact sectionsBody_contains _ "installation" _ (by simp [pypiSections])

/-- Witness for C6: concrete records whose resolved names differ from the
queried identifiers, yet the install commands embed the identifiers. -/
theorem c6_witness :
    containsStr (renderNpm "left-pad" npmSample (some "1.2.3") npmSampleVersion)
      (npmInstallSection "left-pad")
    ∧ containsStr (renderPypi "requests" pypiSampleInfo) (pypiInstallSection "requests") :=
  ⟨(c6_installation envOk "left-pad"
      (renderNpm "left-pad" npmSample (some "1.2.3") npmSampleVersion)).1 rfl,
   (c6_installation envOk "requests" (renderPypi "requests" pypiSampleInfo)).2 rfl⟩

/-- Claim C7: each rendered document is the concatenation of its section list,
and the section labels always form a sublist of the fixed per-registry order:
presence of optional fields gates inclusion but never reorders. -/
theorem c7_section_order (package_name : String) (d : NpmData) (lv : Option String)
    (ld : NpmVersionData) (info : PypiInfo) :
    renderNpm package_name d lv ld = sectionsBody (npmSections package_name d lv ld)
    ∧ List.Sublist ((npmSections package_name d lv ld).map Prod.fst) npmSectionOrder
    ∧ renderPypi package_name info = sectionsBody (pypiSections package_name info)
    ∧ List.Sublist ((pypiSections package_name info).map Prod.fst) pypiSectionOrder := by
  refine ⟨renderNpm_eq_sections package_name d lv ld, ?_,
          renderPypi_eq_sections package_name info, ?_⟩
  · simp only [npmSections, npmSectionOrder]
    split_ifs <;> simp <;> decide
  · cases hu : info.project_urls <;>
      · simp only [pypiSections, pypiSectionOrder, hu]
        split_ifs <;> simp <;> decide

set_option maxRecDepth 8192 in
/-- Claim C1 counterexample: a PyPI record whose `project_urls` is present but
an empty mapping still emits the Project Links header (the truthiness test of
the source accepts an empty object), contradicting the claim that an empty
mapping emits no Project Links section. -/
theorem c1_counterexample :
    pypiEmptyLinksInfo.project_urls = some []
    ∧ "project_links" ∈ (pypiSections "p" pypiEmptyLinksInfo).map Prod.fst
    ∧ containsStr (renderPypi "p" pypiEmptyLinksInfo) "## Project Links\n"
    ∧ renderPypi "p" pypiEmptyLinksInfo
        = "# empty-links v1.0\n\n" ++ pypiInstallSection "p" ++ "## Project Links\n\n" := by
  refine ⟨rfl, by decide, by decide, by decide⟩

/-- Claim C1 amended: the Project Links section is emitted iff `project_urls`
is a present mapping, even an empty one (an empty mapping emits the header
with zero list items); when emitted it lists one item per entry, formatted
`- name: url`, in insertion order. -/
theorem c1_project_links_amended (package_name : String) (info : PypiInfo) :
    ("project_links" ∈ (pypiSections package_name info).map Prod.fst
        ↔ info.project_urls.isSome = true)
    ∧ (∀ urls, info.project_urls = some urls →
        containsStr (renderPypi package_name info)
          ("## Project Links\n" ++ projectLinksItems urls ++ "\n")) := by
  constructor
  · cases hu : info.project_urls <;>
      · simp only [pypiSections, hu]
        split_ifs <;> simp
  · intro urls hu
    rw [renderPypi_eq_sections]
    refine sectionsBody_contains _ "project_links" _ ?_
    simp [pypiSections, hu]

/-- Witness for C1 amended at the sample record with two links. -/
theorem c1_witness :
    containsStr (renderPypi "requests" pypiSampleInfo)
      ("## Project Links\n"
        ++ projectLinksItems [("Docs", "https://d"), ("Source", "https://s")] ++ "\n") :=
  (c1_project_links_amended "requests" pypiSampleInfo).2
    [("Docs", "https://d"), ("Source", "https://s")] rfl

set_option maxRecDepth 8192 in
/-- Claim C2 counterexample: a repository URL with `git+` in the middle and no
`git+` prefix is not displayed unchanged: the source removes the first
occurrence of `git+` wherever it sits, so the document shows the altered URL
and nowhere contains the verbatim one. -/
theorem c2_counterexample :
    getNpmDocs "odd" (.ok npmOddUrlData)
      = .success ("# odd v1.0.0\n\n" ++ npmInstallSection "odd"
          ++ "## Repository\nhttps://example.com/x\n\n")
    ∧ ¬ List.IsPrefix "git+".data "https://example.com/git+x".data
    ∧ ¬ containsStr ("# odd v1.0.0\n\n" ++ npmInstallSection "odd"
          ++ "## Repository\nhttps://example.com/x\n\n") "https://example.com/git+x" := by
  refine ⟨by decide, by decide, by decide⟩

/-- Claim C2 amended: the Repository section is emitted exactly when the
latest-version entry has a truthy repository URL; before display the first
occurrence of the substring `git+` anywhere in the URL is removed; a URL
containing no `git+` at all is displayed unchanged. -/
theorem c2_repository_amended (package_name : String) (d : NpmData) (lv : Option String)
    (ld : NpmVersionData) :
    ("repository" ∈ (npmSections package_name d lv ld).map Prod.fst
        ↔ jsTruthy (ld.repository.bind NpmRepository.url) = true)
    ∧ (∀ u, ld.repository.bind NpmRepository.url = some u → u ≠ "" →
        ¬ containsStr u "git+" →
        containsStr (renderNpm package_name d lv ld) ("## Repository\n" ++ u ++ "\n\n")) := by
  constructor
  · simp only [npmSections]
    split_ifs with h1 h2 h3 h4 h5 <;> simp_all
  · intro u hu hne hno
    have ht : jsTruthy (some u) = true := by
      simpa [jsTruthy] using hne
    rw [renderNpm_eq_sections]
    refine sectionsBody_contains _ "repository" _ ?_
    simp [npmSections, ht, hu, replaceFirst_no_occurrence u "git+" hno]

/-- Witness for C2 amended at a concrete URL containing no `git+`. -/
theorem c2_witness :
    containsStr (renderNpm "p" npmOddUrlData (some "1.0.0") npmPlainUrlVersion)
      ("## Repository\n" ++ "https://gitlab.example/a/b" ++ "\n\n") :=
  (c2_repository_amended "p" npmOddUrlData (some "1.0.0") npmPlainUrlVersion).2
    "https://gitlab.example/a/b" rfl (by decide) (by decide)

/-- Claim C5 counterexample: an npm body whose `dist-tags` lacks `latest` does
not always fault: `versions[undefined]` looks up the literal key `"undefined"`
(ECMAScript ToPropertyKey), and this record carries such an entry, so the
invocation renders a successful document instead of raising. -/
theorem c5_counterexample :
    npmUndefinedKeyData.distTags = some { latest := none }
    ∧ getNpmDocs "weird" (.ok npmUndefinedKeyData)
        = .success ("# weird vundefined\n\n" ++ npmInstallSection "weird") := by
  refine ⟨rfl, by decide⟩

/-- Claim C5 amended: a 2xx body lacking the expected fields surfaces as an
uncaught runtime fault, not a typed error — for npm when `dist-tags` is
absent, `versions` is absent, or the `versions` lookup under the JS-converted
latest key misses (which excludes the record whose `latest` is absent while
`versions` carries a literal `"undefined"` key: that one renders
successfully); for PyPI when the `info` object is absent. -/
theorem c5_schema_fault_amended :
    (∀ (env : UpstreamEnv) (package_name : String) (d : NpmData),
        env.npm package_name = .ok d → npmSchemaBad d →
        ∃ m, (handleCallTool env "get_npm_docs" package_name).1 = .uncaughtFault m)
    ∧ (∀ (env : UpstreamEnv) (package_name : String) (d2 : PypiData),
        env.pypi package_name = .ok d2 → d2.info = none →
        ∃ m, (handleCallTool env "get_pypi_docs" package_name).1 = .uncaughtFault m) := by
  constructor
  · intro env package_name d hfetch hbad
    have hh : (handleCallTool env "get_npm_docs" package_name).1
        = getNpmDocs package_name (env.npm package_name) := by
      simp [handleCallTool]
    rw [hh, hfetch]
    rcases hbad with hdt | hvs | ⟨dt, vs, hdt, hvs, hlook⟩
    · exact ⟨"TypeError: cannot read latest of undefined", by simp [getNpmDocs, hdt]⟩
    · rcases hdt2 : d.distTags with _ | dt
      · exact ⟨"TypeError: cannot read latest of undefined", by simp [getNpmDocs, hdt2]⟩
      · exact ⟨"TypeError: cannot index into undefined versions",
          by simp [getNpmDocs, hdt2, hvs]⟩
    · exact ⟨"TypeError: cannot read homepage of undefined",
        by simp [getNpmDocs, hdt, hvs, hlook]⟩
  · intro env package_name d2 hfetch hinfo
    have hh : (handleCallTool env "get_pypi_docs" package_name).1
        = getPypiDocs package_name (env.pypi package_name) := by
      simp [handleCallTool]
    rw [hh, hfetch]
    exact ⟨"TypeError: cannot read name of undefined", by simp [getPypiDocs, hinfo]⟩

/-- Witness for C5 amended: both registries answer 2xx bodies lacking the
expected fields and both invocations end in an uncaught fault. -/
theorem c5_witness :
    (∃ m, (handleCallTool envSchemaBad "get_npm_docs" "x").1 = .uncaughtFault m)
    ∧ (∃ m, (handleCallTool envSchemaBad "get_pypi_docs" "x").1 = .uncaughtFault m) :=
  ⟨c5_schema_fault_amended.1 envSchemaBad "x"
      { name := none, description := none, distTags := none, versions := none, readme := none }
      rfl (Or.inl rfl),
   c5_schema_fault_amended.2 envSchemaBad "x" { info := none } rfl rfl⟩

/-- Claim C10: when the repository URL of the latest version splits as
`a ++ "git+" ++ b` with no earlier occurrence of `git+`, the Repository
section displays `a ++ b`: the first occurrence is removed wherever it sits in
the URL, not only as a leading marker. -/
theorem c10_replace_anywhere (package_name : String) (d : NpmData) (lv : Option String)
    (ld : NpmVersionData) (a b : String)
    (hu : ld.repository.bind NpmRepository.url = some (a ++ "git+" ++ b))
    (hfirst : ∀ i, i < a.length →
      ¬ List.IsPrefix "git+".data ((a ++ "git+" ++ b).data.drop i)) :
    containsStr (renderNpm package_name d lv ld) ("## Repository\n" ++ (a ++ b) ++ "\n\n") := by
  have hne : (a ++ "git+" ++ b) ≠ "" := by
    intro hcon
    have h0 := congrArg String.data hcon
    simp [str_data_append] at h0
  have ht : jsTruthy (some (a ++ "git+" ++ b)) = true := by
    simpa [jsTruthy] using hne
  have hrw : replaceFirst (a ++ "git+" ++ b) "git+" = a ++ b := by
    show String.mk (removeFirst "git+".data ((a ++ "git+" ++ b).data)) = a ++ b
    rw [show ((a ++ "git+" ++ b).data) = a.data ++ "git+".data ++ b.data from rfl]
    rw [removeFirst_at_first "git+".data a.data b.data (by decide) hfirst]
    rfl
  rw [renderNpm_eq_sections]
  refine sectionsBody_contains _ "repository" _ ?_
  simp [npmSections, hu, ht, hrw]

/-- Witness for C10: the concrete URL of `npmOddUrlVersion` has its `git+`,
which is not a leading marker, removed. -/
theorem c10_witness :
    containsStr (renderNpm "p" npmOddUrlData (some "1.0.0") npmOddUrlVersion)
      ("## Repository\n" ++ ("https://example.com/" ++ "x") ++ "\n\n") :=
  c10_replace_anywhere "p" npmOddUrlData (some "1.0.0") npmOddUrlVersion
    "https://example.com/" "x" (by decide) (by decide)
